import Mathlib

/-!
Shallow embedding of the NYU TinyLev Teensy 4.0 driver sketch
(`nyutinylev_simple.ino` and its near-identical unnamed variant).

The sketch drives two transducer arrays through an L298N dual H-bridge:
pins 2/3 are FlexPWM4 submodule 2 channels A/B (upper array), pins 6/9 are
FlexPWM2 submodule 2 channels A/B (lower array).  `setAmp` (named
`setAmplitude` in the variant file) writes the same duty value to all four
pins with `analogWrite` and then ORs the `INVERTB` bit pattern (0x0200)
into both submodules' output control registers; `setFreq` (`setFrequency`)
writes the same frequency to all four pins; `showFlexPWMInit`
(`ShowFlexPWMInit`) prints the eight OCTRL registers of FlexPWM2 and
FlexPWM4; `blink` toggles the LED once 500 ms have elapsed since the last
toggle; `setup` runs the initialization sequence.

Modelling conventions:
* Hardware and driver state is one record `DriverState`: a duty value per
  pin, a frequency per pin, the eight OCTRL registers (16-bit values as
  `Nat`), the heartbeat state (`lastBlink`, `ledState`, LED pin level),
  and a flag recording whether `analogWriteRes` has been called.
* Machine integers are `Nat` with explicit `% 2 ^ w` where the width
  matters: `setAmp`'s `uint16_t` parameter is truncated `% 2 ^ 16`, and
  `millis` arithmetic in `blink` is `unsigned long` (32-bit) subtraction.
* Frequencies are only stored and compared, never computed with, so the
  `float` argument of `analogWriteFrequency` is modelled as `Rat`.
* `Serial` prints are pure output: `showFlexPWMInit` returns the list of
  register values it reports alongside the (unchanged) state.
* For the ordering of hardware writes in `setup`, each operation is also
  given as a trace of hardware write/read events in source order.
  (In `nyutinylev_simple.ino` line 111 the first diagnostic-dump call is
  garbled by a stray token; the variant file has the call well-formed, and
  both files agree on the sequence of hardware writes modelled here.)
-/

namespace TinyLev

/-- `#define FREQUENCY 40000.`: the transducer resonant frequency, 40 kHz. -/
def FREQUENCY : Rat := 40000

/-- `#define PWMRES 8`: PWM resolution in bits. -/
def PWMRES : Nat := 8

/-- `#define PWMSTEPS 256`: number of duty steps matching `PWMRES`. -/
def PWMSTEPS : Nat := 256

/-- `#define INVERTB 0x0200`: bit pattern that inverts channel B. -/
def INVERTB : Nat := 0x0200

/-- `const int upperA = 2` (FlexPWM4_2A). -/
def upperA : Nat := 2

/-- `const int upperB = 3` (FlexPWM4_2B). -/
def upperB : Nat := 3

/-- `const int lowerA = 6` (FlexPWM2_2A). -/
def lowerA : Nat := 6

/-- `const int lowerB = 9` (FlexPWM2_2B). -/
def lowerB : Nat := 9

/-- `const long blinkDuration = 500`. -/
def blinkDuration : Nat := 500

/-- The driver and hardware state touched by the sketch. -/
@[ext]
structure DriverState where
  dutyUpperA : Nat
  dutyUpperB : Nat
  dutyLowerA : Nat
  dutyLowerB : Nat
  freqUpperA : Rat
  freqUpperB : Rat
  freqLowerA : Rat
  freqLowerB : Rat
  FLEXPWM2_SM0OCTRL : Nat
  FLEXPWM2_SM1OCTRL : Nat
  FLEXPWM2_SM2OCTRL : Nat
  FLEXPWM2_SM3OCTRL : Nat
  FLEXPWM4_SM0OCTRL : Nat
  FLEXPWM4_SM1OCTRL : Nat
  FLEXPWM4_SM2OCTRL : Nat
  FLEXPWM4_SM3OCTRL : Nat
  lastBlink : Nat
  ledState : Bool
  ledPinLevel : Bool
  resolutionConfigured : Bool
  resolutionBits : Nat
  deriving Repr, DecidableEq

/-- Teensyduino `analogWrite(pin, val)`: store the duty value for the pin.
Only the four pins used by the sketch are modelled; the pin constants
`upperA = 2`, `upperB = 3`, `lowerA = 6`, `lowerB = 9` are inlined. -/
def analogWrite (pin val : Nat) (s : DriverState) : DriverState :=
  if pin = 2 then { s with dutyUpperA := val }
  else if pin = 3 then { s with dutyUpperB := val }
  else if pin = 6 then { s with dutyLowerA := val }
  else if pin = 9 then { s with dutyLowerB := val }
  else s

/-- Teensyduino `analogWriteFrequency(pin, frq)`: store the frequency for
the pin (channels A and B of one submodule share one period, so the code
writes the same value to both anyway). -/
def analogWriteFrequency (pin : Nat) (frq : Rat) (s : DriverState) : DriverState :=
  if pin = 2 then { s with freqUpperA := frq }
  else if pin = 3 then { s with freqUpperB := frq }
  else if pin = 6 then { s with freqLowerA := frq }
  else if pin = 9 then { s with freqLowerB := frq }
  else s

/-- Teensyduino `analogWriteRes(bits)`: configure the global PWM duty
resolution.  The model records that it has been called. -/
def analogWriteRes (bits : Nat) (s : DriverState) : DriverState :=
  { s with resolutionConfigured := true, resolutionBits := bits }

/-- `setAmp` (`setAmplitude` in the variant): write the same duty value to
all four pins, then OR `INVERTB` into both submodules' output control
registers.  The `uint16_t` parameter is truncated modulo `2 ^ 16`. -/
def setAmp (amp : Nat) (s : DriverState) : DriverState :=
  let a := amp % 2 ^ 16
  let s := analogWrite 2 a s
  let s := analogWrite 3 a s
  let s := analogWrite 6 a s
  let s := analogWrite 9 a s
  let s := { s with FLEXPWM4_SM2OCTRL := s.FLEXPWM4_SM2OCTRL ||| INVERTB }
  { s with FLEXPWM2_SM2OCTRL := s.FLEXPWM2_SM2OCTRL ||| INVERTB }

/-- `setFreq` (`setFrequency` in the variant): write the same frequency to
all four pins. -/
def setFreq (frq : Rat) (s : DriverState) : DriverState :=
  let s := analogWriteFrequency 2 frq s
  let s := analogWriteFrequency 3 frq s
  let s := analogWriteFrequency 6 frq s
  analogWriteFrequency 9 frq s

/-- `showFlexPWMInit` (`ShowFlexPWMInit` in the variant): print the eight
OCTRL registers, FlexPWM2 SM0..SM3 then FlexPWM4 SM0..SM3, in that order.
Modelled as returning the unchanged state together with the reported
register values. -/
def showFlexPWMInit (s : DriverState) : DriverState × List Nat :=
  (s, [s.FLEXPWM2_SM0OCTRL, s.FLEXPWM2_SM1OCTRL, s.FLEXPWM2_SM2OCTRL,
       s.FLEXPWM2_SM3OCTRL, s.FLEXPWM4_SM0OCTRL, s.FLEXPWM4_SM1OCTRL,
       s.FLEXPWM4_SM2OCTRL, s.FLEXPWM4_SM3OCTRL])

/-- Unsigned 32-bit subtraction, the `unsigned long` arithmetic of
`getTime - lastBlink` in `blink`. -/
def usub32 (a b : Nat) : Nat :=
  (a % 2 ^ 32 + 2 ^ 32 - b % 2 ^ 32) % 2 ^ 32

/-- `blink`: read `millis()` (the `now` argument); if at least
`blinkDuration` has elapsed since `lastBlink`, record the new timestamp,
toggle `ledState` and drive the LED pin with it. -/
def blink (now : Nat) (s : DriverState) : DriverState :=
  if blinkDuration ≤ usub32 now s.lastBlink then
    { s with lastBlink := now % 2 ^ 32,
             ledState := !s.ledState,
             ledPinLevel := !s.ledState }
  else s

/-- A hardware write/read event, for stating the order in which `setup`
touches the hardware. -/
inductive HwEvent where
  | writeRes (bits : Nat)
  | writeFreq (pin : Nat) (frq : Rat)
  | writeDuty (pin : Nat) (val : Nat)
  | orInvertB (pwmModule : Nat)
  | readOctrlAll
  deriving Repr, DecidableEq

/-- The kind of a hardware event, forgetting its arguments. -/
inductive HwKind where
  | res
  | freq
  | duty
  | invert
  | read
  deriving Repr, DecidableEq

/-- Classify a hardware event. -/
def HwEvent.kind : HwEvent → HwKind
  | .writeRes _ => .res
  | .writeFreq _ _ => .freq
  | .writeDuty _ _ => .duty
  | .orInvertB _ => .invert
  | .readOctrlAll => .read

/-- The hardware events of `setAmp amp`, in source order: four duty writes
(pins 2, 3, 6, 9), then the two `INVERTB` ORs (FlexPWM4 then FlexPWM2). -/
def setAmpTrace (amp : Nat) : List HwEvent :=
  let a := amp % 2 ^ 16
  [.writeDuty 2 a, .writeDuty 3 a, .writeDuty 6 a, .writeDuty 9 a,
   .orInvertB 4, .orInvertB 2]

/-- The hardware events of `setFreq frq`, in source order. -/
def setFreqTrace (frq : Rat) : List HwEvent :=
  [.writeFreq 2 frq, .writeFreq 3 frq, .writeFreq 6 frq, .writeFreq 9 frq]

/-- The hardware events of `setup`, in source order: `analogWriteRes(PWMRES)`,
the first diagnostic dump, `setFreq(FREQUENCY)`, `setAmp(PWMSTEPS/2 - 1)`,
the second diagnostic dump.  (`pinMode`, `Serial` traffic and `delay` touch
no PWM hardware.) -/
def setupTrace : List HwEvent :=
  [.writeRes PWMRES] ++ [.readOctrlAll] ++ setFreqTrace FREQUENCY ++
    setAmpTrace (PWMSTEPS / 2 - 1) ++ [.readOctrlAll]

/-- `eventsOrdered p q tr`: in trace `tr`, every event of kind `p` occurs
strictly before every event of kind `q`. -/
def eventsOrdered (p q : HwKind) (tr : List HwEvent) : Prop :=
  ∀ i j : Fin tr.length, (tr.get i).kind = p → (tr.get j).kind = q →
    (i : Nat) < (j : Nat)

instance (p q : HwKind) (tr : List HwEvent) : Decidable (eventsOrdered p q tr) := by
  unfold eventsOrdered; infer_instance

/-- One operation of the sketch, as invokable from `setup` / `loop`. -/
inductive Op where
  | amp (d : Nat)
  | freq (f : Rat)
  | tick (now : Nat)
  | diag
  | res (bits : Nat)
  deriving Repr

/-- State transition of one operation. -/
def step : Op → DriverState → DriverState
  | .amp d, s => setAmp d s
  | .freq f, s => setFreq f s
  | .tick now, s => blink now s
  | .diag, s => (showFlexPWMInit s).1
  | .res bits, s => analogWriteRes bits s

/-- Run a list of operations from a state. -/
def runOps (ops : List Op) (s : DriverState) : DriverState :=
  ops.foldl (fun s op => step op s) s

/-- Teensy 4 power-on `analogWrite` frequency (about 4.482 kHz); the same
default applies to every FlexPWM pin, so all four channels power up with
equal frequency. -/
def defaultPwmFreq : Rat := 4482

/-- The power-on state: duty compare values and OCTRL registers reset to 0,
all channels at the common default PWM frequency, heartbeat at `lastBlink = 0`
with the LED low (`ledState = LOW`), resolution not yet configured (the
Teensyduino default resolution is 8 bits). -/
def initState : DriverState :=
  { dutyUpperA := 0, dutyUpperB := 0, dutyLowerA := 0, dutyLowerB := 0,
    freqUpperA := defaultPwmFreq, freqUpperB := defaultPwmFreq,
    freqLowerA := defaultPwmFreq, freqLowerB := defaultPwmFreq,
    FLEXPWM2_SM0OCTRL := 0, FLEXPWM2_SM1OCTRL := 0,
    FLEXPWM2_SM2OCTRL := 0, FLEXPWM2_SM3OCTRL := 0,
    FLEXPWM4_SM0OCTRL := 0, FLEXPWM4_SM1OCTRL := 0,
    FLEXPWM4_SM2OCTRL := 0, FLEXPWM4_SM3OCTRL := 0,
    lastBlink := 0, ledState := false, ledPinLevel := false,
    resolutionConfigured := false, resolutionBits := 8 }

/-- States reachable from power-on by the sketch's operations. -/
inductive Reachable : DriverState → Prop where
  | init : Reachable initState
  | next (op : Op) {s : DriverState} : Reachable s → Reachable (step op s)

/-! ## Helper lemmas -/

/-- All four channel frequencies agree. -/
def FreqSync (s : DriverState) : Prop :=
  s.freqUpperA = s.freqLowerA ∧ s.freqUpperB = s.freqLowerB ∧
    s.freqUpperA = s.freqUpperB

lemma or_invertB_idem (x : Nat) : (x ||| INVERTB) ||| INVERTB = x ||| INVERTB := by
  rw [Nat.or_assoc, Nat.or_self]

lemma reachable_freqSync {t : DriverState} (ht : Reachable t) : FreqSync t := by
  induction ht with
  | init => exact ⟨rfl, rfl, rfl⟩
  | next op hs ih =>
      cases op with
      | amp d => simpa [FreqSync, step, setAmp, analogWrite] using ih
      | freq f => simp [FreqSync, step, setFreq, analogWriteFrequency]
      | tick now =>
          simp only [step, blink]
          split
          · simpa [FreqSync] using ih
          · exact ih
      | diag => exact ih
      | res bits => simpa [FreqSync, step, analogWriteRes] using ih

/-! ## Claims -/

/-- C1: for every duty value `d` in `[0, PWMSTEPS-1]`, after `setAmp d`
all four output channels (upper A/B on pins 2/3, lower A/B on pins 6/9)
carry the same duty value `d`, and the channel-B inversion flag (bit 9,
the `INVERTB = 0x0200` pattern) is set in both `FLEXPWM4_SM2OCTRL` and
`FLEXPWM2_SM2OCTRL`. -/
theorem setAmp_sets_duty_and_invert (d : Nat) (s : DriverState) (hd : d < PWMSTEPS) :
    (setAmp d s).dutyUpperA = d ∧ (setAmp d s).dutyUpperB = d ∧
    (setAmp d s).dutyLowerA = d ∧ (setAmp d s).dutyLowerB = d ∧
    Nat.testBit (setAmp d s).FLEXPWM4_SM2OCTRL 9 = true ∧
    Nat.testBit (setAmp d s).FLEXPWM2_SM2OCTRL 9 = true := by
  have hlt : d < 2 ^ 16 := by
    have h256 : PWMSTEPS = 256 := rfl
    omega
  have hmod : d % 2 ^ 16 = d := Nat.mod_eq_of_lt hlt
  have hbit : Nat.testBit INVERTB 9 = true := by decide
  refine ⟨?_, ?_, ?_, ?_, ?_, ?_⟩ <;>
    simp [setAmp, analogWrite, hmod, Nat.testBit_or, hbit] <;> omega

/-- Concrete instance of `setAmp_sets_duty_and_invert` at `d = 127`. -/
theorem setAmp_sets_duty_and_invert_witness :
    127 < PWMSTEPS ∧
    ((setAmp 127 initState).dutyUpperA = 127 ∧
     (setAmp 127 initState).dutyUpperB = 127 ∧
     (setAmp 127 initState).dutyLowerA = 127 ∧
     (setAmp 127 initState).dutyLowerB = 127 ∧
     Nat.testBit (setAmp 127 initState).FLEXPWM4_SM2OCTRL 9 = true ∧
     Nat.testBit (setAmp 127 initState).FLEXPWM2_SM2OCTRL 9 = true) :=
  ⟨by decide, setAmp_sets_duty_and_invert 127 initState (by decide)⟩

/-- C2 (counterexample): `setAmp 300` after a prior `setAmp 127` is not
rejected: the out-of-range value 300 is written to the channels and the
state differs from the prior state. -/
theorem setAmp_out_of_range_changes_state :
    (setAmp 300 (setAmp 127 initState)).dutyUpperA = 300 ∧
    (setAmp 127 initState).dutyUpperA = 127 ∧
    setAmp 300 (setAmp 127 initState) ≠ setAmp 127 initState := by
  refine ⟨rfl, rfl, ?_⟩
  intro h
  exact absurd (congrArg DriverState.dutyUpperA h) (by decide)

/-- C2 (amended): `setAmp` performs no range check: for every value
representable in its `uint16_t` parameter, in particular out-of-range duty
values such as 300 with `PWMSTEPS = 256`, it writes the value as-is to all
four channels (no clamping) and ORs `INVERTB` into both control
registers. -/
theorem setAmp_writes_unconditionally (amp : Nat) (s : DriverState)
    (h : amp < 2 ^ 16) :
    (setAmp amp s).dutyUpperA = amp ∧ (setAmp amp s).dutyUpperB = amp ∧
    (setAmp amp s).dutyLowerA = amp ∧ (setAmp amp s).dutyLowerB = amp ∧
    (setAmp amp s).FLEXPWM4_SM2OCTRL = s.FLEXPWM4_SM2OCTRL ||| INVERTB ∧
    (setAmp amp s).FLEXPWM2_SM2OCTRL = s.FLEXPWM2_SM2OCTRL ||| INVERTB := by
  have hmod : amp % 2 ^ 16 = amp := Nat.mod_eq_of_lt h
  refine ⟨?_, ?_, ?_, ?_, ?_, ?_⟩ <;> simp [setAmp, analogWrite, hmod] <;> omega

/-- Concrete instance of `setAmp_writes_unconditionally` at the
out-of-range value 300. -/
theorem setAmp_writes_unconditionally_witness :
    300 < 2 ^ 16 ∧
    ((setAmp 300 initState).dutyUpperA = 300 ∧
     (setAmp 300 initState).dutyUpperB = 300 ∧
     (setAmp 300 initState).dutyLowerA = 300 ∧
     (setAmp 300 initState).dutyLowerB = 300 ∧
     (setAmp 300 initState).FLEXPWM4_SM2OCTRL =
       initState.FLEXPWM4_SM2OCTRL ||| INVERTB ∧
     (setAmp 300 initState).FLEXPWM2_SM2OCTRL =
       initState.FLEXPWM2_SM2OCTRL ||| INVERTB) :=
  ⟨by decide, setAmp_writes_unconditionally 300 initState (by decide)⟩

/-- C3: after `setFreq f` with `f > 0`, all four channels carry the same
frequency `f`; and in every state reachable by the sketch's operations the
upper and lower arrays report equal frequencies (they never diverge). -/
theorem setFreq_sync_invariant (f : Rat) (s t : DriverState)
    (hf : 0 < f) (ht : Reachable t) :
    ((setFreq f s).freqUpperA = f ∧ (setFreq f s).freqUpperB = f ∧
     (setFreq f s).freqLowerA = f ∧ (setFreq f s).freqLowerB = f) ∧
    (t.freqUpperA = t.freqLowerA ∧ t.freqUpperB = t.freqLowerB) := by
  have hs := reachable_freqSync ht
  exact ⟨by refine ⟨?_, ?_, ?_, ?_⟩ <;> simp [setFreq, analogWriteFrequency],
         hs.1, hs.2.1⟩

/-- Concrete instance of `setFreq_sync_invariant` at `f = FREQUENCY` and the
power-on state. -/
theorem setFreq_sync_invariant_witness :
    (0 : Rat) < 40000 ∧
    (((setFreq 40000 initState).freqUpperA = 40000 ∧
      (setFreq 40000 initState).freqUpperB = 40000 ∧
      (setFreq 40000 initState).freqLowerA = 40000 ∧
      (setFreq 40000 initState).freqLowerB = 40000) ∧
     (initState.freqUpperA = initState.freqLowerA ∧
      initState.freqUpperB = initState.freqLowerB)) :=
  ⟨by norm_num, setFreq_sync_invariant 40000 initState initState (by norm_num)
    Reachable.init⟩

/-- C4 (counterexample): at power-on the resolution has not been configured,
yet `setAmp 127` does not fail: it writes the duty values and changes the
state. -/
theorem setAmp_before_res_writes_anyway :
    initState.resolutionConfigured = false ∧
    (setAmp 127 initState).dutyUpperA = 127 ∧
    setAmp 127 initState ≠ initState := by
  refine ⟨rfl, rfl, ?_⟩
  intro h
  exact absurd (congrArg DriverState.dutyUpperA h) (by decide)

/-- C4 (amended): `setAmp` performs no configuration check: called while
`analogWriteRes` has not yet run, it still writes the duty values and sets
the inversion flags (in the sketch, `setup` happens to call `analogWriteRes`
before `setAmp`, but the setter itself cannot fail). -/
theorem setAmp_ignores_resolution_config (d : Nat) (s : DriverState)
    (h : s.resolutionConfigured = false) :
    (setAmp d s).resolutionConfigured = false ∧
    (setAmp d s).dutyUpperA = d % 2 ^ 16 ∧ (setAmp d s).dutyUpperB = d % 2 ^ 16 ∧
    (setAmp d s).dutyLowerA = d % 2 ^ 16 ∧ (setAmp d s).dutyLowerB = d % 2 ^ 16 ∧
    Nat.testBit (setAmp d s).FLEXPWM4_SM2OCTRL 9 = true ∧
    Nat.testBit (setAmp d s).FLEXPWM2_SM2OCTRL 9 = true := by
  have hbit : Nat.testBit INVERTB 9 = true := by decide
  refine ⟨?_, ?_, ?_, ?_, ?_, ?_, ?_⟩ <;>
    simp [setAmp, analogWrite, h, Nat.testBit_or, hbit]

/-- Concrete instance of `setAmp_ignores_resolution_config` at the power-on
state. -/
theorem setAmp_ignores_resolution_config_witness :
    initState.resolutionConfigured = false ∧
    ((setAmp 127 initState).resolutionConfigured = false ∧
     (setAmp 127 initState).dutyUpperA = 127 % 2 ^ 16 ∧
     (setAmp 127 initState).dutyUpperB = 127 % 2 ^ 16 ∧
     (setAmp 127 initState).dutyLowerA = 127 % 2 ^ 16 ∧
     (setAmp 127 initState).dutyLowerB = 127 % 2 ^ 16 ∧
     Nat.testBit (setAmp 127 initState).FLEXPWM4_SM2OCTRL 9 = true ∧
     Nat.testBit (setAmp 127 initState).FLEXPWM2_SM2OCTRL 9 = true) :=
  ⟨rfl, setAmp_ignores_resolution_config 127 initState rfl⟩

/-- C5: OR-ing `INVERTB = 0x0200` into a control register is idempotent:
for every starting register value, doing it twice gives the same register
value as doing it once; consequently a second `setAmp` with the same duty
leaves both submodules' control registers exactly as the first left them. -/
theorem invertB_or_idempotent (r d : Nat) (s : DriverState) :
    (r ||| INVERTB) ||| INVERTB = r ||| INVERTB ∧
    (setAmp d (setAmp d s)).FLEXPWM4_SM2OCTRL = (setAmp d s).FLEXPWM4_SM2OCTRL ∧
    (setAmp d (setAmp d s)).FLEXPWM2_SM2OCTRL = (setAmp d s).FLEXPWM2_SM2OCTRL := by
  refine ⟨or_invertB_idem r, ?_, ?_⟩ <;>
    simp [setAmp, analogWrite, or_invertB_idem]

/-- C6: in the hardware-write order of `setup`, the resolution write
precedes every duty write, every frequency write precedes every duty
write, and every duty write precedes every inversion-flag write; moreover
inside `setAmp` (for every argument) the four duty writes precede the two
inversion-flag writes. -/
theorem setup_write_order :
    eventsOrdered .res .duty setupTrace ∧
    eventsOrdered .freq .duty setupTrace ∧
    eventsOrdered .duty .invert setupTrace ∧
    (∀ amp : Nat, (setAmpTrace amp).map HwEvent.kind =
      [.duty, .duty, .duty, .duty, .invert, .invert]) :=
  ⟨by decide, by decide, by decide, fun amp => rfl⟩

/-- C7: with `blinkDuration = 500` and `lastBlink = 0`, `blink` at
`t = 0` and `t = 400` leaves the state unchanged, and `blink` at `t = 600`
toggles the LED state and records `lastBlink = 600`. -/
theorem blink_scenario :
    blink 0 initState = initState ∧
    blink 400 (blink 0 initState) = initState ∧
    (blink 600 (blink 400 (blink 0 initState))).ledState = !initState.ledState ∧
    (blink 600 (blink 400 (blink 0 initState))).ledPinLevel = !initState.ledState ∧
    (blink 600 (blink 400 (blink 0 initState))).lastBlink = 600 := by
  decide

/-- C8: the diagnostic dump is a pure read: it returns the state unchanged
(as the `step` of the `diag` operation it is the identity) and reports the
raw values of the eight OCTRL registers, FlexPWM2 SM0..SM3 then FlexPWM4
SM0..SM3. -/
theorem showFlexPWMInit_pure (s : DriverState) :
    (showFlexPWMInit s).1 = s ∧
    step Op.diag s = s ∧
    (showFlexPWMInit s).2 =
      [s.FLEXPWM2_SM0OCTRL, s.FLEXPWM2_SM1OCTRL, s.FLEXPWM2_SM2OCTRL,
       s.FLEXPWM2_SM3OCTRL, s.FLEXPWM4_SM0OCTRL, s.FLEXPWM4_SM1OCTRL,
       s.FLEXPWM4_SM2OCTRL, s.FLEXPWM4_SM3OCTRL] :=
  ⟨rfl, rfl, rfl⟩

/-- C9: `setAmp` changes the two submodule control registers only by
OR-ing `INVERTB` in, so every bit other than bit 9 of `FLEXPWM4_SM2OCTRL`
and `FLEXPWM2_SM2OCTRL` keeps its previous value, and the control
registers of all six other submodules are untouched. -/
theorem setAmp_frame (d i : Nat) (s : DriverState) (hi : i ≠ 9) :
    (setAmp d s).FLEXPWM4_SM2OCTRL = s.FLEXPWM4_SM2OCTRL ||| INVERTB ∧
    (setAmp d s).FLEXPWM2_SM2OCTRL = s.FLEXPWM2_SM2OCTRL ||| INVERTB ∧
    Nat.testBit (setAmp d s).FLEXPWM4_SM2OCTRL i =
      Nat.testBit s.FLEXPWM4_SM2OCTRL i ∧
    Nat.testBit (setAmp d s).FLEXPWM2_SM2OCTRL i =
      Nat.testBit s.FLEXPWM2_SM2OCTRL i ∧
    (setAmp d s).FLEXPWM2_SM0OCTRL = s.FLEXPWM2_SM0OCTRL ∧
    (setAmp d s).FLEXPWM2_SM1OCTRL = s.FLEXPWM2_SM1OCTRL ∧
    (setAmp d s).FLEXPWM2_SM3OCTRL = s.FLEXPWM2_SM3OCTRL ∧
    (setAmp d s).FLEXPWM4_SM0OCTRL = s.FLEXPWM4_SM0OCTRL ∧
    (setAmp d s).FLEXPWM4_SM1OCTRL = s.FLEXPWM4_SM1OCTRL ∧
    (setAmp d s).FLEXPWM4_SM3OCTRL = s.FLEXPWM4_SM3OCTRL := by
  have hbit : Nat.testBit INVERTB i = false := by
    have h9 : INVERTB = 2 ^ 9 := rfl
    rw [h9]
    exact Nat.testBit_two_pow_of_ne (fun h => hi h.symm)
  refine ⟨?_, ?_, ?_, ?_, ?_, ?_, ?_, ?_, ?_, ?_⟩ <;>
    simp [setAmp, analogWrite, Nat.testBit_or, hbit]

/-- Concrete instance of `setAmp_frame` at bit 2 of a state with a nonzero
control-register value. -/
theorem setAmp_frame_witness :
    (2 : Nat) ≠ 9 ∧
    ((setAmp 127 initState).FLEXPWM4_SM2OCTRL =
       initState.FLEXPWM4_SM2OCTRL ||| INVERTB ∧
     (setAmp 127 initState).FLEXPWM2_SM2OCTRL =
       initState.FLEXPWM2_SM2OCTRL ||| INVERTB ∧
     Nat.testBit (setAmp 127 initState).FLEXPWM4_SM2OCTRL 2 =
       Nat.testBit initState.FLEXPWM4_SM2OCTRL 2 ∧
     Nat.testBit (setAmp 127 initState).FLEXPWM2_SM2OCTRL 2 =
       Nat.testBit initState.FLEXPWM2_SM2OCTRL 2 ∧
     (setAmp 127 initState).FLEXPWM2_SM0OCTRL = initState.FLEXPWM2_SM0OCTRL ∧
     (setAmp 127 initState).FLEXPWM2_SM1OCTRL = initState.FLEXPWM2_SM1OCTRL ∧
     (setAmp 127 initState).FLEXPWM2_SM3OCTRL = initState.FLEXPWM2_SM3OCTRL ∧
     (setAmp 127 initState).FLEXPWM4_SM0OCTRL = initState.FLEXPWM4_SM0OCTRL ∧
     (setAmp 127 initState).FLEXPWM4_SM1OCTRL = initState.FLEXPWM4_SM1OCTRL ∧
     (setAmp 127 initState).FLEXPWM4_SM3OCTRL = initState.FLEXPWM4_SM3OCTRL) :=
  ⟨by decide, setAmp_frame 127 2 initState (by decide)⟩

/-- C10: once the channel-B inversion bit (bit 9) is set in both
submodules' control registers, no sequence of the sketch's operations
(amplitude or frequency setters, diagnostic dump, heartbeat tick,
resolution write) ever clears it. -/
theorem invert_bit_monotone (s : DriverState) (ops : List Op)
    (h4 : Nat.testBit s.FLEXPWM4_SM2OCTRL 9 = true)
    (h2 : Nat.testBit s.FLEXPWM2_SM2OCTRL 9 = true) :
    Nat.testBit (runOps ops s).FLEXPWM4_SM2OCTRL 9 = true ∧
    Nat.testBit (runOps ops s).FLEXPWM2_SM2OCTRL 9 = true := by
  induction ops generalizing s with
  | nil => exact ⟨h4, h2⟩
  | cons op rest ih =>
      have hstep : runOps (op :: rest) s = runOps rest (step op s) := rfl
      rw [hstep]
      apply ih
      · cases op with
        | amp d => simp [step, setAmp, analogWrite, Nat.testBit_or, h4]
        | freq f => simpa [step, setFreq, analogWriteFrequency] using h4
        | tick now =>
            simp only [step, blink]
            split
            · simpa using h4
            · exact h4
        | diag => exact h4
        | res bits => simpa [step, analogWriteRes] using h4
      · cases op with
        | amp d => simp [step, setAmp, analogWrite, Nat.testBit_or, h2]
        | freq f => simpa [step, setFreq, analogWriteFrequency] using h2
        | tick now =>
            simp only [step, blink]
            split
            · simpa using h2
            · exact h2
        | diag => exact h2
        | res bits => simpa [step, analogWriteRes] using h2

/-- Concrete instance of `invert_bit_monotone`: after the first `setAmp`,
a later frequency change, heartbeat tick and diagnostic dump leave the
inversion bit set. -/
theorem invert_bit_monotone_witness :
    (Nat.testBit (setAmp 127 initState).FLEXPWM4_SM2OCTRL 9 = true ∧
     Nat.testBit (setAmp 127 initState).FLEXPWM2_SM2OCTRL 9 = true) ∧
    (Nat.testBit (runOps [Op.freq 41000, Op.tick 600, Op.diag]
        (setAmp 127 initState)).FLEXPWM4_SM2OCTRL 9 = true ∧
     Nat.testBit (runOps [Op.freq 41000, Op.tick 600, Op.diag]
        (setAmp 127 initState)).FLEXPWM2_SM2OCTRL 9 = true) :=
  ⟨⟨by decide, by decide⟩,
   invert_bit_monotone (setAmp 127 initState) [Op.freq 41000, Op.tick 600, Op.diag]
     (by decide) (by decide)⟩

end TinyLev
